import Mathlib

/-!
# Verification of the Camava provider (camply/providers/camava)

Shallow embedding of `src/camply/providers/camava/camava.py` in Lean 4.
Text is modelled as `List Char`; the regular-expression searches of the
source are modelled by explicit left-to-right scanners; HTTP traffic is
modelled by an abstract network value recording the statuses and the
response content, and the session client returns the list of network
actions it performed alongside its result.
-/

namespace Camava

/-! ## Basic text utilities -/

/-- Drop the literal `lit` from the front of `s`; `none` when `s` does not
start with `lit`. -/
def dropLit : List Char → List Char → Option (List Char)
  | [], s => some s
  | _ :: _, [] => none
  | c :: cs, x :: xs => if x = c then dropLit cs xs else none

/-- Case-insensitive variant of `dropLit` (models a `re.IGNORECASE` literal). -/
def dropLitCI : List Char → List Char → Option (List Char)
  | [], s => some s
  | _ :: _, [] => none
  | c :: cs, x :: xs => if x.toLower = c.toLower then dropLitCI cs xs else none

/-- Skip leading whitespace (models `\s*`). -/
def skipSpaces (s : List Char) : List Char := s.dropWhile Char.isWhitespace

/-- Maximal leading run of decimal digits and the remainder (models a greedy
`\d*`). -/
def takeDigits : List Char → List Char × List Char
  | [] => ([], [])
  | c :: rest =>
    if c.isDigit then
      let p := takeDigits rest
      (c :: p.1, p.2)
    else ([], c :: rest)

/-- Lower-case every character (models Python `str.lower()` on ASCII text). -/
def lowerStr (s : List Char) : List Char := s.map Char.toLower

/-- Substring test (models Python `in` on strings). -/
def containsSub (pat : List Char) : List Char → Bool
  | [] => pat.isPrefixOf []
  | c :: rest => pat.isPrefixOf (c :: rest) || containsSub pat rest

/-- Strip leading and trailing whitespace (models Python `str.strip()`). -/
def pyStrip (s : List Char) : List Char :=
  ((s.dropWhile Char.isWhitespace).reverse.dropWhile Char.isWhitespace).reverse

/-! ## Numeric parsing (models Python `int()` / `float()` on the inputs the
provider feeds them) -/

/-- Value of a digit string. -/
def digitsToNat (ds : List Char) : Nat :=
  ds.foldl (fun acc c => 10 * acc + (c.toNat - '0'.toNat)) 0

/-- Unsigned part of `int()`: at least one digit and nothing else. -/
def intCore (u : List Char) : Option Int :=
  let p := takeDigits u
  if p.1 ≠ [] ∧ p.2 = [] then some (digitsToNat p.1) else none

/-- Models Python `int(s)`: strips whitespace, accepts an optional sign
followed by at least one decimal digit; anything else raises `ValueError`,
modelled as `none`. -/
def pyInt? (s : List Char) : Option Int :=
  match pyStrip s with
  | '-' :: rest => (intCore rest).map (fun n => -n)
  | '+' :: rest => intCore rest
  | t => intCore t

/-- Unsigned part of `float()` on plain decimal notation: digits with an
optional fractional part, at least one digit overall.  The value is kept
exact as a rational. -/
def floatCore (u : List Char) : Option ℚ :=
  let ip := takeDigits u
  match ip.2 with
  | '.' :: frac =>
    let fp := takeDigits frac
    if fp.2 = [] ∧ (ip.1 ≠ [] ∨ fp.1 ≠ []) then
      some ((digitsToNat ip.1 : ℚ) + (digitsToNat fp.1 : ℚ) / (10 : ℚ) ^ fp.1.length)
    else none
  | [] => if ip.1 ≠ [] then some (digitsToNat ip.1 : ℚ) else none
  | _ => none

/-- Models Python `float(s)` on plain decimal notation: strips whitespace
and an optional sign around `floatCore`. -/
def pyFloat? (s : List Char) : Option ℚ :=
  match pyStrip s with
  | '-' :: rest => (floatCore rest).map (fun q => -q)
  | '+' :: rest => floatCore rest
  | t => floatCore t

/-! ## Pattern matchers

The source uses three `re.search` calls.  Each is modelled by a matcher that
tries the pattern at the head of the text, plus a scanner that tries every
position from the left and returns the first (leftmost) match, exactly the
semantics of `re.search`. -/

/-- Try `r'Use Fee:\s*\$(\d+(?:\.\d{2})?)'` at the head of `s`; on success
return the captured group (digits, optionally followed by a dot and exactly
two digits). -/
def matchUseFeeAt (s : List Char) : Option (List Char) :=
  match dropLit "Use Fee:".data s with
  | none => none
  | some s1 =>
    match skipSpaces s1 with
    | '$' :: s2 =>
      if (takeDigits s2).1 = [] then none
      else
        match (takeDigits s2).2 with
        | '.' :: c1 :: c2 :: _ =>
          if c1.isDigit && c2.isDigit then some ((takeDigits s2).1 ++ ['.', c1, c2])
          else some (takeDigits s2).1
        | _ => some (takeDigits s2).1
    | _ => none

/-- `re.search` for the Use Fee pattern: leftmost match of `matchUseFeeAt`. -/
def findUseFee : List Char → Option (List Char)
  | [] => matchUseFeeAt []
  | c :: rest =>
    match matchUseFeeAt (c :: rest) with
    | some g => some g
    | none => findUseFee rest

/-- Try `r'Persons:\s*(\d+)'` at the head of `s`; on success return the
captured digit group. -/
def matchPersonsAt (s : List Char) : Option (List Char) :=
  match dropLit "Persons:".data s with
  | none => none
  | some s1 =>
    if (takeDigits (skipSpaces s1)).1 = [] then none
    else some (takeDigits (skipSpaces s1)).1

/-- `re.search` for the Persons pattern: leftmost match. -/
def findPersons : List Char → Option (List Char)
  | [] => matchPersonsAt []
  | c :: rest =>
    match matchPersonsAt (c :: rest) with
    | some g => some g
    | none => findPersons rest

/-- Try `r'Site\s+(\d+[A-Z]?)'` with `re.IGNORECASE` at the head of `s`:
the literal `Site` case-insensitively, at least one whitespace character,
at least one digit, then an optional letter (`[A-Z]` under `IGNORECASE`
matches both cases).  Returns the captured group. -/
def matchSiteLabelAt (s : List Char) : Option (List Char) :=
  match dropLitCI "Site".data s with
  | none => none
  | some s1 =>
    match s1 with
    | c :: s2 =>
      if c.isWhitespace then
        if (takeDigits (skipSpaces s2)).1 = [] then none
        else
          match (takeDigits (skipSpaces s2)).2 with
          | l :: _ =>
            if l.isAlpha then some ((takeDigits (skipSpaces s2)).1 ++ [l])
            else some (takeDigits (skipSpaces s2)).1
          | [] => some (takeDigits (skipSpaces s2)).1
      else none
    | [] => none

/-- `re.search` for the Site label pattern: leftmost match. -/
def findSiteLabel : List Char → Option (List Char)
  | [] => matchSiteLabelAt []
  | c :: rest =>
    match matchSiteLabelAt (c :: rest) with
    | some g => some g
    | none => findSiteLabel rest

/-! ## Dates

`datetime` values reach the provider as midnight-aligned datetimes, so only
the calendar date matters.  `daysFromCivil` is the standard proleptic
Gregorian serial-day function, giving `(e - s).days` as a difference of
serial days. -/

/-- A calendar date as carried by the `datetime` arguments. -/
structure PyDate where
  year : Int
  month : Nat
  day : Nat
  deriving Repr, DecidableEq

/-- Serial day number of a Gregorian date (days since 1970-01-01, Howard
Hinnant's `days_from_civil` algorithm); models `datetime` subtraction:
`(e - s).days = daysFromCivil e - daysFromCivil s`. -/
def daysFromCivil (d : PyDate) : Int :=
  let y : Int := if d.month ≤ 2 then d.year - 1 else d.year
  let era : Int := (if 0 ≤ y then y else y - 399) / 400
  let yoe : Int := y - era * 400
  let m : Int := d.month
  let doy : Int := (153 * (m + (if m > 2 then -3 else 9)) + 2) / 5 + (d.day : Int) - 1
  let doe : Int := yoe * 365 + yoe / 4 - yoe / 100 + doy
  era * 146097 + doe - 719468

/-- Two-digit zero padding (the `%m` / `%d` strftime directives). -/
def pad2 (n : Nat) : String :=
  if n < 10 then "0" ++ toString n else toString n

/-- Models `strftime('%-m/%-d/%Y')`: month and day without zero padding. -/
def fmtDateUnpadded (d : PyDate) : String :=
  toString d.month ++ "/" ++ toString d.day ++ "/" ++ toString d.year

/-- Models `strftime('%m/%d/%Y')`: month and day zero-padded to two digits. -/
def fmtDatePadded (d : PyDate) : String :=
  pad2 d.month ++ "/" ++ pad2 d.day ++ "/" ++ toString d.year

/-! ## Data containers -/

/-- `CampgroundFacility` as constructed by `find_campgrounds` (the container
itself lives outside this repository; only the fields the provider sets are
modelled). -/
structure CampgroundFacility where
  facility_name : List Char
  facility_id : Int
  recreation_area : List Char
  recreation_area_id : Int
  deriving Repr, DecidableEq

/-- `AvailableCampsite` as constructed by `_extract_site_info` (the container
itself lives outside this repository; exactly the fields the provider passes
are modelled). -/
structure AvailableCampsite where
  campsite_id : Int
  booking_date : PyDate
  booking_end_date : PyDate
  booking_nights : Int
  campsite_site_name : List Char
  campsite_loop_name : List Char
  campsite_type : List Char
  campsite_occupancy : Int × Int
  campsite_use_type : List Char
  availability_status : List Char
  recreation_area : List Char
  recreation_area_id : Int
  facility_name : List Char
  facility_id : Int
  booking_url : List Char
  location : Option (ℚ × ℚ)
  deriving Repr, DecidableEq

/-- One `div` element carrying a `data-id` attribute, as located by
`soup.find_all('div', {'data-id': True})`: its `data-id` string, its
flattened text content (`get_text()`), and its optional `data-lat` /
`data-lng` attributes. -/
structure Div where
  dataId : List Char
  text : List Char
  dataLat : Option (List Char)
  dataLng : Option (List Char)
  deriving Repr, DecidableEq

/-- A `<select name="parent_idno">` option: its `value` attribute (as
returned by `option.get('value', '')`) and its display text
(`option.get_text()`). -/
structure OptionTag where
  value : List Char
  text : List Char
  deriving Repr, DecidableEq

/-- The catalog landing page, abstracted to the one control the resolver
reads: the `parent_idno` select and its options, when present. -/
structure CatalogPage where
  parentSelect : Option (List OptionTag)
  deriving Repr, DecidableEq

/-- Outcome of the catalog GET: a raised network exception, or a response
with an HTTP status and a page. -/
inductive CatalogNet where
  | netException
  | response (status : Nat) (page : CatalogPage)
  deriving Repr, DecidableEq

/-- The two search requests of one availability call, abstracted to what the
provider inspects: the HTTP statuses of the session GET and the search POST,
and the `data-id` divs found in the POST response body. -/
structure Network where
  getStatus : Nat
  postStatus : Nat
  postDivs : List Div
  deriving Repr, DecidableEq

/-- Network actions performed by the session client, in order. -/
inductive NetAction where
  | get
  | post (payload : List (String × String))
  deriving Repr, DecidableEq

/-- Mutable provider state: the campground cache (`self._campground_cache`),
`None` until the first successful catalog fetch. -/
structure ProviderState where
  cache : Option (List CampgroundFacility)
  deriving Repr, DecidableEq

/-! ## Facility Catalog Resolver (`find_campgrounds`) -/

/-- The option-processing loop of `find_campgrounds`: strip the `value`
attribute and the display text, skip options where either is empty, build a
facility from `int(value)`, and skip the option on `ValueError`. -/
def catalogLoop (parkName : List Char) : List OptionTag → List CampgroundFacility
  | [] => []
  | o :: rest =>
    let fid := pyStrip o.value
    let fname := pyStrip o.text
    if fid = [] ∨ fname = [] then catalogLoop parkName rest
    else
      match pyInt? fid with
      | some n =>
        { facility_name := fname
          facility_id := n
          recreation_area := parkName
          recreation_area_id := n : CampgroundFacility } :: catalogLoop parkName rest
      | none => catalogLoop parkName rest

/-- `find_campgrounds` as a state transition.  Returns the facility list, the
new provider state, and whether network I/O was attempted.  The whole body is
wrapped in `try/except` returning `[]`; the cache is written only when the
fetch succeeds (status 200 and the `parent_idno` select present). -/
def findCampgrounds (parkName : List Char) (st : ProviderState) (net : CatalogNet) :
    List CampgroundFacility × ProviderState × Bool :=
  match st.cache with
  | some cached => (cached, st, false)
  | none =>
    match net with
    | .netException => ([], st, true)
    | .response status page =>
      if status ≠ 200 then ([], st, true)
      else
        match page.parentSelect with
        | none => ([], st, true)
        | some opts =>
          let campgrounds := catalogLoop parkName opts
          (campgrounds, { cache := some campgrounds }, true)

/-- `_get_campground_name`: populate the cache via `find_campgrounds` when it
is `None`, then look the id up in the cache (an empty cached list is falsy in
Python, so it also falls through to the park name). -/
def getCampgroundName (parkName : List Char) (st : ProviderState) (cnet : CatalogNet)
    (campgroundId : Int) : List Char × ProviderState :=
  let st1 := if st.cache = none then (findCampgrounds parkName st cnet).2.1 else st
  match st1.cache with
  | some (c :: cs) =>
    match (c :: cs).find? (fun cg => cg.facility_id = campgroundId) with
    | some cg => (cg.facility_name, st1)
    | none => (parkName, st1)
  | _ => (parkName, st1)

/-! ## Availability Session Client (`_get_availability_html`) -/

/-- The POST payload built by `_get_availability_html`, in the order the
source writes the dict. -/
def availabilityPayload (campgroundId : Int) (startDate endDate : PyDate) :
    List (String × String) :=
  let resLength : Int := daysFromCivil endDate - daysFromCivil startDate
  [ ("reserve_type", "camping"),
    ("parent_idno", toString campgroundId),
    ("arrive_date", fmtDateUnpadded startDate),
    ("res_length", toString resLength),
    ("depart_date", fmtDatePadded endDate),
    ("rv_length", "0"),
    ("rv_width", "0"),
    ("site_type_idno", ""),
    ("max_consecutive_nights", "14"),
    ("min_consecutive_nights", "1") ]

/-- `_get_availability_html`: initial GET to establish the session, raising
`CamavaError` on non-200; then the search POST, raising `CamavaError` on
non-200; on success the response content (its `data-id` divs).  The second
component records the network actions performed, in order. -/
def getAvailabilityHtml (campgroundId : Int) (startDate endDate : PyDate)
    (net : Network) : Except (List Char) (List Div) × List NetAction :=
  if net.getStatus ≠ 200 then
    (.error ("Failed to establish session: " ++ toString net.getStatus).data,
      [NetAction.get])
  else
    let payload := availabilityPayload campgroundId startDate endDate
    if net.postStatus ≠ 200 then
      (.error ("Search request failed: " ++ toString net.postStatus).data,
        [NetAction.get, NetAction.post payload])
    else
      (.ok net.postDivs, [NetAction.get, NetAction.post payload])

/-! ## Availability HTML Extractor (`_extract_site_info`) -/

/-- The price step of `_extract_site_info`
(`float(price_match.group(1)) if price_match else 0.0`): an `Except`
modelling that a failing `float()` would raise. -/
def priceValE (text : List Char) : Except (List Char) ℚ :=
  match findUseFee text with
  | none => .ok 0
  | some g =>
    match pyFloat? g with
    | some q => .ok q
    | none => .error ("could not convert string to float".data)

/-- The occupancy step of `_extract_site_info`
(`int(occupancy_match.group(1)) if occupancy_match else 1`). -/
def occValE (text : List Char) : Except (List Char) Int :=
  match findPersons text with
  | none => .ok 1
  | some g =>
    match pyInt? g with
    | some n => .ok n
    | none => .error ("invalid literal for int".data)

/-- The site-type classification of `_extract_site_info`:
`'RV' in text or 'rv' in text.lower()`, else `'tent' in text.lower()`, else
`'group' in text.lower()`, else `"Standard"`. -/
def siteTypeFromText (text : List Char) : List Char :=
  if containsSub "RV".data text || containsSub "rv".data (lowerStr text) then "RV".data
  else if containsSub "tent".data (lowerStr text) then "Tent".data
  else if containsSub "group".data (lowerStr text) then "Group".data
  else "Standard".data

/-- The site-label step: `f"Site {m.group(1)}"` on a match, else
`f"Site {site_id}"`. -/
def siteNameFromDiv (d : Div) : List Char :=
  match findSiteLabel d.text with
  | some g => "Site ".data ++ g
  | none => "Site ".data ++ d.dataId

/-- The coordinate block: both attributes present and truthy (non-empty),
both parsing as floats, else no location (the inner `try/except: pass`
absorbs float failures silently). -/
def locFromDiv (d : Div) : Option (ℚ × ℚ) :=
  match d.dataLat, d.dataLng with
  | some la, some ln =>
    if la ≠ [] ∧ ln ≠ [] then
      match pyFloat? la, pyFloat? ln with
      | some x, some y => some (x, y)
      | _, _ => none
    else none
  | _, _ => none

/-- Call-level context threaded into extraction: facility id, resolved
facility name, requested dates, and the booking URL
(`f"{self.base_url}{self.reservation_path}"`). -/
structure ExtractCtx where
  campgroundId : Int
  campgroundName : List Char
  startDate : PyDate
  endDate : PyDate
  bookingUrl : List Char
  deriving Repr, DecidableEq

/-- The body of `_extract_site_info` before its `try/except`: an exception
anywhere (modelled: a failing `float()` on the price group, a failing `int()`
on the occupancy group or on `site_id`) aborts with `.error`. -/
def extractSiteInfoE (ctx : ExtractCtx) (d : Div) :
    Except (List Char) AvailableCampsite := do
  let text := d.text
  let siteName := siteNameFromDiv d
  let _price ← priceValE text
  let occupancy ← occValE text
  let siteType := siteTypeFromText text
  let location := locFromDiv d
  let campsiteId ←
    match pyInt? d.dataId with
    | some n => Except.ok n
    | none => Except.error ("invalid literal for int".data)
  Except.ok
    { campsite_id := campsiteId
      booking_date := ctx.startDate
      booking_end_date := ctx.endDate
      booking_nights := daysFromCivil ctx.endDate - daysFromCivil ctx.startDate
      campsite_site_name := siteName
      campsite_loop_name := ctx.campgroundName
      campsite_type := siteType
      campsite_occupancy := (occupancy, occupancy)
      campsite_use_type := "Overnight".data
      availability_status := "Available".data
      recreation_area := ctx.campgroundName
      recreation_area_id := ctx.campgroundId
      facility_name := ctx.campgroundName
      facility_id := ctx.campgroundId
      booking_url := ctx.bookingUrl
      location := location }

/-- `_extract_site_info` with its `try/except`: any exception is caught and
the fragment yields `None`. -/
def extractSiteInfo (ctx : ExtractCtx) (d : Div) : Option AvailableCampsite :=
  (extractSiteInfoE ctx d).toOption

/-! ## `_parse_availability_html` -/

/-- The fragment loop of `_parse_availability_html`: skip a div whose
`data-id` is already in `seen_sites`, otherwise record it as seen, extract,
and keep the record when extraction succeeded. -/
def parseLoop (ctx : ExtractCtx) : List Div → List (List Char) → List AvailableCampsite
  | [], _ => []
  | d :: rest, seen =>
    if d.dataId ∈ seen then parseLoop ctx rest seen
    else
      match extractSiteInfo ctx d with
      | some c => c :: parseLoop ctx rest (d.dataId :: seen)
      | none => parseLoop ctx rest (d.dataId :: seen)

/-- `_parse_availability_html` on the located `data-id` divs (the early
return for an empty find is the empty list either way). -/
def parseAvailabilityHtml (ctx : ExtractCtx) (divs : List Div) :
    List AvailableCampsite :=
  match divs with
  | [] => []
  | _ => parseLoop ctx divs []

/-! ## `get_campsites` -/

/-- `get_campsites`: resolve the campground name (which may fetch the
catalog), fetch the availability markup (exceptions from the session client
propagate), and parse it. -/
def getCampsites (parkName bookingUrl : List Char) (st : ProviderState)
    (cnet : CatalogNet) (net : Network) (campgroundId : Int)
    (startDate endDate : PyDate) :
    Except (List Char) (List AvailableCampsite) × ProviderState :=
  let r := getCampgroundName parkName st cnet campgroundId
  match (getAvailabilityHtml campgroundId startDate endDate net).1 with
  | .error m => (.error m, r.2)
  | .ok divs =>
    let ctx : ExtractCtx :=
      { campgroundId := campgroundId
        campgroundName := r.1
        startDate := startDate
        endDate := endDate
        bookingUrl := bookingUrl }
    (.ok (parseAvailabilityHtml ctx divs), r.2)

/-! ## Specification-side definitions -/

/-- First-occurrence deduplication by `data-id`, stated independently of the
provider's loop: keep the head and drop every later div with the same
`data-id` string. -/
def dedupFirstDivs : List Div → List Div
  | [] => []
  | d :: rest => d :: dedupFirstDivs (rest.filter fun x => decide (x.dataId ≠ d.dataId))
termination_by l => l.length
decreasing_by
  exact Nat.lt_succ_of_le (List.length_filter_le _ _)

/-- The option-skipping rule of the claim, as a per-option partial map:
empty stripped value or text, or an unparseable integer, yields no
facility. -/
def catalogOptionRule (parkName : List Char) (o : OptionTag) :
    Option CampgroundFacility :=
  let fid := pyStrip o.value
  let fname := pyStrip o.text
  if fid = [] ∨ fname = [] then none
  else (pyInt? fid).map fun n =>
    { facility_name := fname
      facility_id := n
      recreation_area := parkName
      recreation_area_id := n }

/-- Sample extraction context used by the concrete round-trip scenarios. -/
def sampleCtx : ExtractCtx :=
  { campgroundId := 2
    campgroundName := "Jalama Beach".data
    startDate := ⟨2026, 1, 10⟩
    endDate := ⟨2026, 1, 12⟩
    bookingUrl := "https://santabarbara.camava.com/reservation/camping/index.asp".data }

/-- Sample fragment with `data-id="101"`. -/
def sampleDiv101 : Div :=
  { dataId := "101".data
    text := "Site 101 Use Fee: $35.00 Persons: 6 tent".data
    dataLat := none
    dataLng := none }

/-- Sample fragment with `data-id="102"`. -/
def sampleDiv102 : Div :=
  { dataId := "102".data
    text := "Site 102 Use Fee: $40.00 Persons: 4 RV".data
    dataLat := none
    dataLng := none }

/-- Sample duplicate fragment re-using `data-id="101"`. -/
def sampleDiv101dup : Div :=
  { dataId := "101".data
    text := "Site 101 duplicate fragment".data
    dataLat := none
    dataLng := none }

/-- Sample fragment whose `data-id` does not parse as an integer. -/
def sampleDivBadId : Div :=
  { dataId := "abc".data
    text := "Site 7 Use Fee: $20.00".data
    dataLat := none
    dataLng := none }

/-- Sample fragment with `data-id="7"`. -/
def sampleDiv7 : Div :=
  { dataId := "7".data
    text := "Site 7".data
    dataLat := none
    dataLng := none }

/-- Sample fragment with `data-id="07"`: a distinct attribute string whose
integer parse collides with `"7"`. -/
def sampleDiv07 : Div :=
  { dataId := "07".data
    text := "Site 7 listed again".data
    dataLat := none
    dataLng := none }

/-- Sample facility as cached by a successful catalog fetch. -/
def sampleFacility : CampgroundFacility :=
  { facility_name := "Jalama Beach".data
    facility_id := 2
    recreation_area := "Santa Barbara County Parks".data
    recreation_area_id := 2 }

/-! ## Structural lemmas about deduplication and the fragment loop -/

theorem dedupFirstDivs_subset {d : Div} :
    ∀ {l : List Div}, d ∈ dedupFirstDivs l → d ∈ l := by
  intro l
  induction l using dedupFirstDivs.induct with
  | case1 => intro h; simp [dedupFirstDivs] at h
  | case2 a rest ih =>
    intro h
    rw [dedupFirstDivs] at h
    rcases List.mem_cons.mp h with h | h
    · exact h ▸ List.mem_cons_self a rest
    · exact List.mem_cons_of_mem a (List.mem_of_mem_filter (ih h))

theorem dedupFirstDivs_nodup :
    ∀ (l : List Div), ((dedupFirstDivs l).map Div.dataId).Nodup := by
  intro l
  induction l using dedupFirstDivs.induct with
  | case1 => simp [dedupFirstDivs]
  | case2 a rest ih =>
    rw [dedupFirstDivs]
    refine List.nodup_cons.mpr ⟨?_, ih⟩
    intro hmem
    rcases List.mem_map.mp hmem with ⟨x, hx, hxe⟩
    have hx' := dedupFirstDivs_subset hx
    have := List.of_mem_filter hx'
    simp only [decide_eq_true_eq] at this
    exact this hxe

theorem dedupFirstDivs_of_nodup :
    ∀ (l : List Div), (l.map Div.dataId).Nodup → dedupFirstDivs l = l := by
  intro l
  induction l with
  | nil => intro _; simp [dedupFirstDivs]
  | cons a rest ih =>
    intro h
    rw [List.map_cons, List.nodup_cons] at h
    rw [dedupFirstDivs]
    have hfilter : rest.filter (fun x => decide (x.dataId ≠ a.dataId)) = rest := by
      apply List.filter_eq_self.mpr
      intro x hx
      simp only [decide_eq_true_eq]
      intro hxe
      exact h.1 (hxe ▸ List.mem_map_of_mem Div.dataId hx)
    rw [hfilter, ih h.2]

theorem filter_notMem_cons (rest : List Div) (id0 : List Char) (sn : List (List Char)) :
    rest.filter (fun x => decide (x.dataId ∉ id0 :: sn)) =
      (rest.filter (fun x => decide (x.dataId ∉ sn))).filter
        (fun x => decide (x.dataId ≠ id0)) := by
  induction rest with
  | nil => rfl
  | cons a t ih =>
    by_cases h1 : a.dataId = id0
    · subst h1
      by_cases h2 : a.dataId ∈ sn <;> simp [List.filter_cons, h2, ih]
    · by_cases h2 : a.dataId ∈ sn <;> simp [List.filter_cons, h1, h2, ih]

theorem parseLoop_eq_filterMap (ctx : ExtractCtx) :
    ∀ (divs : List Div) (seen : List (List Char)),
      parseLoop ctx divs seen =
        (dedupFirstDivs (divs.filter fun x => decide (x.dataId ∉ seen))).filterMap
          (extractSiteInfo ctx) := by
  intro divs
  induction divs with
  | nil => intro seen; simp [parseLoop, dedupFirstDivs]
  | cons d rest ih =>
    intro seen
    by_cases h : d.dataId ∈ seen
    · rw [parseLoop, if_pos h, List.filter_cons_of_neg (by simpa using h), ih]
    · rw [parseLoop, if_neg h, List.filter_cons_of_pos (by simpa using h),
        dedupFirstDivs, List.filterMap_cons, ← filter_notMem_cons, ← ih]
      cases hx : extractSiteInfo ctx d <;> rfl

theorem parseAvailabilityHtml_eq_filterMap (ctx : ExtractCtx) (divs : List Div) :
    parseAvailabilityHtml ctx divs =
      (dedupFirstDivs divs).filterMap (extractSiteInfo ctx) := by
  cases divs with
  | nil => simp [parseAvailabilityHtml, dedupFirstDivs]
  | cons d rest =>
    have h1 := parseLoop_eq_filterMap ctx (d :: rest) []
    have h2 : (d :: rest).filter (fun x => decide (x.dataId ∉ ([] : List (List Char)))) =
        d :: rest := by
      apply List.filter_eq_self.mpr
      intro x _
      simp
    rw [h2] at h1
    exact h1

/-! ## Lemmas about successful extraction -/

theorem extractSiteInfoE_ok (ctx : ExtractCtx) (d : Div) (c : AvailableCampsite)
    (h : extractSiteInfoE ctx d = .ok c) :
    ∃ p n i, priceValE d.text = .ok p ∧ occValE d.text = .ok n ∧
      pyInt? d.dataId = some i ∧
      c = { campsite_id := i
            booking_date := ctx.startDate
            booking_end_date := ctx.endDate
            booking_nights := daysFromCivil ctx.endDate - daysFromCivil ctx.startDate
            campsite_site_name := siteNameFromDiv d
            campsite_loop_name := ctx.campgroundName
            campsite_type := siteTypeFromText d.text
            campsite_occupancy := (n, n)
            campsite_use_type := "Overnight".data
            availability_status := "Available".data
            recreation_area := ctx.campgroundName
            recreation_area_id := ctx.campgroundId
            facility_name := ctx.campgroundName
            facility_id := ctx.campgroundId
            booking_url := ctx.bookingUrl
            location := locFromDiv d } := by
  unfold extractSiteInfoE at h
  simp only [bind, Except.bind] at h
  cases hp : priceValE d.text with
  | error e => rw [hp] at h; exact absurd h (by simp)
  | ok p =>
    rw [hp] at h
    cases ho : occValE d.text with
    | error e => rw [ho] at h; exact absurd h (by simp)
    | ok n =>
      rw [ho] at h
      cases hi : pyInt? d.dataId with
      | none => rw [hi] at h; exact absurd h (by simp)
      | some i =>
        rw [hi] at h
        simp only [Except.ok.injEq] at h
        exact ⟨p, n, i, rfl, rfl, rfl, h.symm⟩

/-! ## Character and scanner lemmas -/

theorem digit_not_whitespace {c : Char} (h : c.isDigit = true) :
    c.isWhitespace = false := by
  by_contra hw
  rw [Bool.not_eq_false] at hw
  simp only [Char.isWhitespace, Bool.or_eq_true, decide_eq_true_eq] at hw
  rcases hw with ((h1 | h1) | h1) | h1 <;> subst h1 <;> exact absurd h (by decide)

theorem dropWhile_eq_self_of (p : Char → Bool) (l : List Char)
    (h : ∀ c ∈ l, p c = false) : l.dropWhile p = l := by
  cases l with
  | nil => rfl
  | cons a t =>
    rw [List.dropWhile_cons_of_neg]
    rw [h a (List.mem_cons_self a t)]
    simp

theorem pyStrip_eq_self {s : List Char} (h : ∀ c ∈ s, c.isWhitespace = false) :
    pyStrip s = s := by
  unfold pyStrip
  rw [dropWhile_eq_self_of _ s h,
    dropWhile_eq_self_of _ s.reverse (fun c hc => h c (List.mem_reverse.mp hc)),
    List.reverse_reverse]

theorem takeDigits_fst_digits :
    ∀ (s : List Char), ∀ c ∈ (takeDigits s).1, c.isDigit = true := by
  intro s
  induction s with
  | nil => intro c hc; simp [takeDigits] at hc
  | cons a t ih =>
    intro c hc
    by_cases h : a.isDigit = true
    · simp only [takeDigits, h, if_true] at hc
      rcases List.mem_cons.mp hc with rfl | hc
      · exact h
      · exact ih c hc
    · simp only [takeDigits, h, if_false] at hc
      simp at hc

theorem takeDigits_all (l : List Char) (h : ∀ c ∈ l, c.isDigit = true) :
    takeDigits l = (l, []) := by
  induction l with
  | nil => rfl
  | cons a t ih =>
    have ha := h a (List.mem_cons_self a t)
    simp only [takeDigits, ha, if_true]
    rw [ih (fun c hc => h c (List.mem_cons_of_mem a hc))]

theorem takeDigits_append_stop :
    ∀ (ds rest : List Char), (∀ c ∈ ds, c.isDigit = true) →
      (∀ c, rest.head? = some c → c.isDigit = false) →
      takeDigits (ds ++ rest) = (ds, rest) := by
  intro ds
  induction ds with
  | nil =>
    intro rest _ hrest
    cases rest with
    | nil => rfl
    | cons r rr =>
      have hr := hrest r rfl
      simp only [List.nil_append, takeDigits, hr]
      simp
  | cons d dd ih =>
    intro rest hds hrest
    have hd := hds d (List.mem_cons_self d dd)
    simp only [List.cons_append, takeDigits, hd, if_true, List.append_eq]
    rw [ih rest (fun c hc => hds c (List.mem_cons_of_mem d hc)) hrest]

/-! ## `int()` / `float()` succeed on the strings the matchers capture -/

theorem pyInt?_digits {ds : List Char} (hne : ds ≠ [])
    (hd : ∀ c ∈ ds, c.isDigit = true) :
    pyInt? ds = some ((digitsToNat ds : Int)) := by
  have hcore : intCore ds = some ((digitsToNat ds : Int)) := by
    unfold intCore
    rw [takeDigits_all ds hd]
    simp [hne]
  have hstrip : pyStrip ds = ds :=
    pyStrip_eq_self (fun c hc => digit_not_whitespace (hd c hc))
  unfold pyInt?
  rw [hstrip]
  cases ds with
  | nil => exact absurd rfl hne
  | cons c tail =>
    have hc := hd c (List.mem_cons_self c tail)
    split
    · next rest heq =>
      rw [List.cons.injEq] at heq
      exact absurd (heq.1 ▸ hc) (by decide)
    · next rest heq =>
      rw [List.cons.injEq] at heq
      exact absurd (heq.1 ▸ hc) (by decide)
    · exact hcore

theorem pyFloat?_digits {ds : List Char} (hne : ds ≠ [])
    (hd : ∀ c ∈ ds, c.isDigit = true) :
    pyFloat? ds = some (digitsToNat ds : ℚ) := by
  have hcore : floatCore ds = some (digitsToNat ds : ℚ) := by
    unfold floatCore
    rw [takeDigits_all ds hd]
    simp [hne]
  have hstrip : pyStrip ds = ds :=
    pyStrip_eq_self (fun c hc => digit_not_whitespace (hd c hc))
  unfold pyFloat?
  rw [hstrip]
  cases ds with
  | nil => exact absurd rfl hne
  | cons c tail =>
    have hc := hd c (List.mem_cons_self c tail)
    split
    · next rest heq =>
      rw [List.cons.injEq] at heq
      exact absurd (heq.1 ▸ hc) (by decide)
    · next rest heq =>
      rw [List.cons.injEq] at heq
      exact absurd (heq.1 ▸ hc) (by decide)
    · exact hcore

theorem pyFloat?_frac {ds : List Char} {c1 c2 : Char} (hne : ds ≠ [])
    (hd : ∀ c ∈ ds, c.isDigit = true)
    (h1 : c1.isDigit = true) (h2 : c2.isDigit = true) :
    pyFloat? (ds ++ ['.', c1, c2]) =
      some ((digitsToNat ds : ℚ) + (digitsToNat [c1, c2] : ℚ) / 100) := by
  have hcore : floatCore (ds ++ ['.', c1, c2]) =
      some ((digitsToNat ds : ℚ) + (digitsToNat [c1, c2] : ℚ) / 100) := by
    unfold floatCore
    rw [takeDigits_append_stop ds ['.', c1, c2] hd
      (by intro c hc; cases hc; decide)]
    have hfrac : takeDigits [c1, c2] = ([c1, c2], []) := by
      apply takeDigits_all
      intro c hc
      rcases List.mem_cons.mp hc with rfl | hc
      · exact h1
      · rcases List.mem_cons.mp hc with rfl | hc
        · exact h2
        · simp at hc
    simp only [hfrac]
    rw [if_pos ⟨trivial, Or.inr (by simp)⟩]
    norm_num
  have hnws : ∀ c ∈ ds ++ ['.', c1, c2], c.isWhitespace = false := by
    intro c hc
    rcases List.mem_append.mp hc with hc | hc
    · exact digit_not_whitespace (hd c hc)
    · rcases List.mem_cons.mp hc with rfl | hc
      · decide
      · rcases List.mem_cons.mp hc with rfl | hc
        · exact digit_not_whitespace h1
        · rcases List.mem_cons.mp hc with rfl | hc
          · exact digit_not_whitespace h2
          · simp at hc
  have hstrip : pyStrip (ds ++ ['.', c1, c2]) = ds ++ ['.', c1, c2] :=
    pyStrip_eq_self hnws
  unfold pyFloat?
  rw [hstrip]
  cases ds with
  | nil => exact absurd rfl hne
  | cons c tail =>
    have hc := hd c (List.mem_cons_self c tail)
    rw [List.cons_append]
    split
    · next rest heq =>
      rw [List.cons.injEq] at heq
      exact absurd (heq.1 ▸ hc) (by decide)
    · next rest heq =>
      rw [List.cons.injEq] at heq
      exact absurd (heq.1 ▸ hc) (by decide)
    · rw [← List.cons_append]
      exact hcore

/-! ## Shape of the captured regex groups -/

/-- The group captured by the Use Fee pattern is a non-empty digit string,
optionally followed by a dot and two digits. -/
theorem matchUseFeeAt_shape {s g : List Char} (h : matchUseFeeAt s = some g) :
    ∃ ds, ds ≠ [] ∧ (∀ c ∈ ds, c.isDigit = true) ∧
      (g = ds ∨ ∃ c1 c2, c1.isDigit = true ∧ c2.isDigit = true ∧
        g = ds ++ ['.', c1, c2]) := by
  unfold matchUseFeeAt at h
  split at h
  · exact absurd h (by simp)
  · next s1 _ =>
    split at h
    · next s2 _ =>
      split at h
      · exact absurd h (by simp)
      · next hne =>
        split at h
        · next c1 c2 _ _ =>
          split at h
          · next hdig =>
            rw [Option.some.injEq] at h
            rw [Bool.and_eq_true] at hdig
            exact ⟨(takeDigits s2).1, hne, takeDigits_fst_digits s2,
              Or.inr ⟨c1, c2, hdig.1, hdig.2, h.symm⟩⟩
          · rw [Option.some.injEq] at h
            exact ⟨(takeDigits s2).1, hne, takeDigits_fst_digits s2, Or.inl h.symm⟩
        · rw [Option.some.injEq] at h
          exact ⟨(takeDigits s2).1, hne, takeDigits_fst_digits s2, Or.inl h.symm⟩
    · exact absurd h (by simp)

/-- `findUseFee` propagates the group shape. -/
theorem findUseFee_shape :
    ∀ {s g : List Char}, findUseFee s = some g →
      ∃ ds, ds ≠ [] ∧ (∀ c ∈ ds, c.isDigit = true) ∧
        (g = ds ∨ ∃ c1 c2, c1.isDigit = true ∧ c2.isDigit = true ∧
          g = ds ++ ['.', c1, c2]) := by
  intro s
  induction s with
  | nil =>
    intro g h
    rw [findUseFee] at h
    exact matchUseFeeAt_shape h
  | cons c rest ih =>
    intro g h
    rw [findUseFee] at h
    split at h
    · next g0 hm => rw [Option.some.injEq] at h; exact h ▸ matchUseFeeAt_shape hm
    · exact ih h

/-- The group captured by the Persons pattern is a non-empty digit string. -/
theorem matchPersonsAt_shape {s g : List Char} (h : matchPersonsAt s = some g) :
    g ≠ [] ∧ ∀ c ∈ g, c.isDigit = true := by
  unfold matchPersonsAt at h
  split at h
  · exact absurd h (by simp)
  · next s1 _ =>
    split at h
    · exact absurd h (by simp)
    · next hne =>
      rw [Option.some.injEq] at h
      exact h ▸ ⟨hne, takeDigits_fst_digits _⟩

/-- `findPersons` propagates the group shape. -/
theorem findPersons_shape :
    ∀ {s g : List Char}, findPersons s = some g →
      g ≠ [] ∧ ∀ c ∈ g, c.isDigit = true := by
  intro s
  induction s with
  | nil =>
    intro g h
    rw [findPersons] at h
    exact matchPersonsAt_shape h
  | cons c rest ih =>
    intro g h
    rw [findPersons] at h
    split at h
    · next g0 hm => rw [Option.some.injEq] at h; exact h ▸ matchPersonsAt_shape hm
    · exact ih h

/-! ## Totality of the price and occupancy steps -/

/-- The `float()` call on a captured Use Fee group never fails. -/
theorem priceValE_total (text : List Char) : ∃ q, priceValE text = .ok q := by
  cases hf : findUseFee text with
  | none =>
    refine ⟨0, ?_⟩
    unfold priceValE
    rw [hf]
  | some g =>
    obtain ⟨ds, hne, hd, hshape⟩ := findUseFee_shape hf
    rcases hshape with rfl | ⟨c1, c2, h1, h2, rfl⟩
    · refine ⟨(digitsToNat g : ℚ), ?_⟩
      unfold priceValE
      simp only [hf, pyFloat?_digits hne hd]
    · refine ⟨(digitsToNat ds : ℚ) + (digitsToNat [c1, c2] : ℚ) / 100, ?_⟩
      unfold priceValE
      simp only [hf, pyFloat?_frac hne hd h1 h2]

/-- The `int()` call on a captured Persons group never fails. -/
theorem occValE_total (text : List Char) : ∃ n, occValE text = .ok n := by
  cases hf : findPersons text with
  | none =>
    refine ⟨1, ?_⟩
    unfold occValE
    rw [hf]
  | some g =>
    obtain ⟨hne, hd⟩ := findPersons_shape hf
    refine ⟨(digitsToNat g : Int), ?_⟩
    unfold occValE
    simp only [hf, pyInt?_digits hne hd]

/-! ## Remaining helper lemmas -/

theorem extractSiteInfo_some {ctx : ExtractCtx} {d : Div} {c : AvailableCampsite}
    (h : extractSiteInfo ctx d = some c) : extractSiteInfoE ctx d = .ok c := by
  unfold extractSiteInfo at h
  cases he : extractSiteInfoE ctx d with
  | error e => rw [he] at h; exact absurd h (by simp [Except.toOption])
  | ok a =>
    rw [he] at h
    simp only [Except.toOption, Option.some.injEq] at h
    rw [h]

theorem extractSiteInfo_none {ctx : ExtractCtx} {d : Div} {e : List Char}
    (h : extractSiteInfoE ctx d = .error e) : extractSiteInfo ctx d = none := by
  unfold extractSiteInfo
  rw [h]
  rfl

theorem catalogLoop_eq_filterMap (parkName : List Char) :
    ∀ (opts : List OptionTag),
      catalogLoop parkName opts = opts.filterMap (catalogOptionRule parkName) := by
  intro opts
  induction opts with
  | nil => rfl
  | cons o rest ih =>
    rw [catalogLoop, List.filterMap_cons]
    by_cases h : pyStrip o.value = [] ∨ pyStrip o.text = []
    · have ho : catalogOptionRule parkName o = none := by
        unfold catalogOptionRule
        simp [h]
      simp [h, ho, ih]
    · cases hi : pyInt? (pyStrip o.value) with
      | none =>
        have ho : catalogOptionRule parkName o = none := by
          unfold catalogOptionRule
          simp [h, hi]
        simp [h, hi, ho, ih]
      | some n =>
        have ho : catalogOptionRule parkName o =
            some { facility_name := pyStrip o.text
                   facility_id := n
                   recreation_area := parkName
                   recreation_area_id := n } := by
          unfold catalogOptionRule
          simp [h, hi]
        simp [h, hi, ho, ih]

/-! ## Claims -/

/-- C1, counterexample: with `endDate = startDate` (so `endDate ≤ startDate`)
and an endpoint answering 200 to both requests, `_get_availability_html`
performs network I/O (its action trace is non-empty) and completes
successfully — the call is not rejected, so the claimed precondition
`endDate > startDate` is not enforced at entry. -/
theorem claim_C1_counterexample :
    daysFromCivil ⟨2026, 5, 1⟩ ≤ daysFromCivil ⟨2026, 5, 1⟩ ∧
    (getAvailabilityHtml 2 ⟨2026, 5, 1⟩ ⟨2026, 5, 1⟩ ⟨200, 200, []⟩).2 ≠ [] ∧
    (getAvailabilityHtml 2 ⟨2026, 5, 1⟩ ⟨2026, 5, 1⟩ ⟨200, 200, []⟩).1 =
      .ok [] := by
  refine ⟨le_refl _, ?_, ?_⟩
  · decide
  · rfl

/-- C1, amended: `_get_availability_html` performs no date-range validation.
Even when `endDate ≤ startDate`, it performs the session GET first (no
rejection precedes network I/O), and when the GET returns 200 it performs
the search POST with the payload built from the given dates (whose
`res_length` is then non-positive). -/
theorem claim_C1 (cid : Int) (s e : PyDate) (net : Network)
    (_h : daysFromCivil e ≤ daysFromCivil s) :
    (getAvailabilityHtml cid s e net).2.head? = some NetAction.get ∧
    (net.getStatus = 200 →
      (getAvailabilityHtml cid s e net).2 =
        [NetAction.get, NetAction.post (availabilityPayload cid s e)]) := by
  unfold getAvailabilityHtml
  by_cases hg : net.getStatus = 200
  · by_cases hp : net.postStatus = 200 <;> simp [hg, hp]
  · simp [hg]

/-- C1 witness: the amended theorem applied at equal dates and a fully
successful endpoint. -/
theorem claim_C1_witness :
    daysFromCivil ⟨2026, 5, 1⟩ ≤ daysFromCivil ⟨2026, 5, 1⟩ ∧
    ((getAvailabilityHtml 2 ⟨2026, 5, 1⟩ ⟨2026, 5, 1⟩ ⟨200, 200, []⟩).2.head? =
        some NetAction.get ∧
      (Network.getStatus ⟨200, 200, []⟩ = 200 →
        (getAvailabilityHtml 2 ⟨2026, 5, 1⟩ ⟨2026, 5, 1⟩ ⟨200, 200, []⟩).2 =
          [NetAction.get, NetAction.post (availabilityPayload 2 ⟨2026, 5, 1⟩ ⟨2026, 5, 1⟩)])) :=
  ⟨le_refl _, claim_C1 2 ⟨2026, 5, 1⟩ ⟨2026, 5, 1⟩ ⟨200, 200, []⟩ (le_refl _)⟩

/-- C2: `_parse_availability_html` returns exactly the per-first-occurrence
deduplication of the located fragments, mapped through extraction — hence at
most one record per unique `data-id`, keeping the first occurrence in
first-seen order; and on a response with fragments "101", "102", "101" it
returns records for 101 and 102 only, in that order. -/
theorem claim_C2 (ctx : ExtractCtx) (divs : List Div) :
    parseAvailabilityHtml ctx divs =
      (dedupFirstDivs divs).filterMap (extractSiteInfo ctx) ∧
    ((dedupFirstDivs divs).map Div.dataId).Nodup ∧
    (∀ d ∈ dedupFirstDivs divs, d ∈ divs) ∧
    (parseAvailabilityHtml sampleCtx [sampleDiv101, sampleDiv102, sampleDiv101dup]).map
        AvailableCampsite.campsite_id = [101, 102] :=
  ⟨parseAvailabilityHtml_eq_filterMap ctx divs,
   dedupFirstDivs_nodup divs,
   fun _ hd => dedupFirstDivs_subset hd,
   by decide⟩

/-- C2 witness: the theorem applied to the concrete three-fragment
response. -/
theorem claim_C2_witness :
    parseAvailabilityHtml sampleCtx [sampleDiv101, sampleDiv102, sampleDiv101dup] =
      (dedupFirstDivs [sampleDiv101, sampleDiv102, sampleDiv101dup]).filterMap
        (extractSiteInfo sampleCtx) ∧
    ((dedupFirstDivs [sampleDiv101, sampleDiv102, sampleDiv101dup]).map Div.dataId).Nodup ∧
    (∀ d ∈ dedupFirstDivs [sampleDiv101, sampleDiv102, sampleDiv101dup],
      d ∈ [sampleDiv101, sampleDiv102, sampleDiv101dup]) ∧
    (parseAvailabilityHtml sampleCtx [sampleDiv101, sampleDiv102, sampleDiv101dup]).map
        AvailableCampsite.campsite_id = [101, 102] :=
  claim_C2 sampleCtx [sampleDiv101, sampleDiv102, sampleDiv101dup]

/-- C3: per-fragment failure isolation.  If one retained fragment's
extraction raises (`extractSiteInfoE` errors), that fragment contributes no
record, no exception escapes (the parser still returns a plain list), and
the records of all other fragments that extract successfully are still
produced. -/
theorem claim_C3 (ctx : ExtractCtx) (l1 l2 : List Div) (d : Div) (err : List Char)
    (hfail : extractSiteInfoE ctx d = .error err)
    (hnodup : ((l1 ++ d :: l2).map Div.dataId).Nodup) :
    parseAvailabilityHtml ctx (l1 ++ d :: l2) =
      l1.filterMap (extractSiteInfo ctx) ++ l2.filterMap (extractSiteInfo ctx) := by
  rw [parseAvailabilityHtml_eq_filterMap, dedupFirstDivs_of_nodup _ hnodup,
    List.filterMap_append, List.filterMap_cons, extractSiteInfo_none hfail]

/-- C3 witness: a middle fragment with unparseable `data-id` fails extraction
and is dropped while both neighbours still produce records. -/
theorem claim_C3_witness :
    extractSiteInfoE sampleCtx sampleDivBadId = .error ("invalid literal for int".data) ∧
    ((([sampleDiv101] ++ sampleDivBadId :: [sampleDiv102])).map Div.dataId).Nodup ∧
    parseAvailabilityHtml sampleCtx ([sampleDiv101] ++ sampleDivBadId :: [sampleDiv102]) =
      [sampleDiv101].filterMap (extractSiteInfo sampleCtx) ++
        [sampleDiv102].filterMap (extractSiteInfo sampleCtx) :=
  ⟨by rfl, by decide,
   claim_C3 sampleCtx [sampleDiv101] [sampleDiv102] sampleDivBadId
     ("invalid literal for int".data) (by rfl) (by decide)⟩

/-- C4: once the session GET succeeds, the search POST carries exactly the
ten form fields of the legacy contract: `reserve_type = "camping"`, the
facility id as a decimal string, the check-in date without zero padding, the
stay length as the whole-day difference, the check-out date with zero
padding, the static RV/site-type defaults, and the min/max consecutive
nights of 1 and 14. -/
theorem claim_C4 (cid : Int) (s e : PyDate) (net : Network)
    (h : net.getStatus = 200) :
    (getAvailabilityHtml cid s e net).2 =
      [NetAction.get, NetAction.post
        [("reserve_type", "camping"),
         ("parent_idno", toString cid),
         ("arrive_date", toString s.month ++ "/" ++ toString s.day ++ "/" ++ toString s.year),
         ("res_length", toString (daysFromCivil e - daysFromCivil s)),
         ("depart_date", pad2 e.month ++ "/" ++ pad2 e.day ++ "/" ++ toString e.year),
         ("rv_length", "0"),
         ("rv_width", "0"),
         ("site_type_idno", ""),
         ("max_consecutive_nights", "14"),
         ("min_consecutive_nights", "1")]] := by
  unfold getAvailabilityHtml availabilityPayload fmtDateUnpadded fmtDatePadded
  by_cases hp : net.postStatus = 200 <;> simp [h, hp]

/-- C4 witness: for 2026-01-10 → 2026-01-12 the payload shows the asymmetric
date formats ("1/10/2026" vs "01/12/2026") and `res_length = "2"`. -/
theorem claim_C4_witness :
    Network.getStatus ⟨200, 200, []⟩ = 200 ∧
    (getAvailabilityHtml 2 ⟨2026, 1, 10⟩ ⟨2026, 1, 12⟩ ⟨200, 200, []⟩).2 =
      [NetAction.get, NetAction.post
        [("reserve_type", "camping"),
         ("parent_idno", "2"),
         ("arrive_date", "1/10/2026"),
         ("res_length", "2"),
         ("depart_date", "01/12/2026"),
         ("rv_length", "0"),
         ("rv_width", "0"),
         ("site_type_idno", ""),
         ("max_consecutive_nights", "14"),
         ("min_consecutive_nights", "1")]] := by
  refine ⟨rfl, ?_⟩
  rw [claim_C4 2 ⟨2026, 1, 10⟩ ⟨2026, 1, 12⟩ ⟨200, 200, []⟩ rfl]
  decide

/-- C5: site-type classification follows the stated precedence (`RV` before
`Tent` before `Group` before `Standard`), and a text containing both "RV"
and "tent" classifies as RV. -/
theorem claim_C5 (text : List Char) :
    ((containsSub "RV".data text || containsSub "rv".data (lowerStr text)) = true →
      siteTypeFromText text = "RV".data) ∧
    ((containsSub "RV".data text || containsSub "rv".data (lowerStr text)) = false →
      containsSub "tent".data (lowerStr text) = true →
      siteTypeFromText text = "Tent".data) ∧
    ((containsSub "RV".data text || containsSub "rv".data (lowerStr text)) = false →
      containsSub "tent".data (lowerStr text) = false →
      containsSub "group".data (lowerStr text) = true →
      siteTypeFromText text = "Group".data) ∧
    ((containsSub "RV".data text || containsSub "rv".data (lowerStr text)) = false →
      containsSub "tent".data (lowerStr text) = false →
      containsSub "group".data (lowerStr text) = false →
      siteTypeFromText text = "Standard".data) ∧
    siteTypeFromText "Site 12 RV or tent allowed".data = "RV".data := by
  refine ⟨?_, ?_, ?_, ?_, by decide⟩ <;> unfold siteTypeFromText
  · intro h1
    rw [h1]
    rfl
  · intro h1 h2
    rw [h1, h2]
    rfl
  · intro h1 h2 h3
    rw [h1, h2, h3]
    rfl
  · intro h1 h2 h3
    rw [h1, h2, h3]
    rfl

/-- C5 witness: the RV arm applied to a text containing both "RV" and
"tent". -/
theorem claim_C5_witness :
    (containsSub "RV".data "big RV tent area".data ||
      containsSub "rv".data (lowerStr "big RV tent area".data)) = true ∧
    siteTypeFromText "big RV tent area".data = "RV".data :=
  ⟨by decide, (claim_C5 "big RV tent area".data).1 (by decide)⟩

/-- C6: the price and occupancy steps are total over any fragment text
(`Except.ok` for every input), default to 0.0 and 1 respectively when the
pattern is absent, and the (parsed or defaulted) occupancy is used as both
the minimum and the maximum of the record's occupancy bound. -/
theorem claim_C6 (text : List Char) (ctx : ExtractCtx) (d : Div) :
    (∃ q, priceValE text = .ok q) ∧
    (findUseFee text = none → priceValE text = .ok 0) ∧
    (∃ n, occValE text = .ok n) ∧
    (findPersons text = none → occValE text = .ok 1) ∧
    (∀ c, extractSiteInfoE ctx d = .ok c →
      ∃ n, occValE d.text = .ok n ∧ c.campsite_occupancy = (n, n)) := by
  refine ⟨priceValE_total text, ?_, occValE_total text, ?_, ?_⟩
  · intro h
    unfold priceValE
    rw [h]
  · intro h
    unfold occValE
    rw [h]
  · intro c hc
    obtain ⟨p, n, i, _hp, hn, _hi, rfl⟩ := extractSiteInfoE_ok ctx d c hc
    exact ⟨n, hn, rfl⟩

/-- C6 witness: on a text with neither pattern the defaults 0.0 and 1 are
produced. -/
theorem claim_C6_witness :
    findUseFee "no patterns here".data = none ∧
    priceValE "no patterns here".data = .ok 0 ∧
    findPersons "no patterns here".data = none ∧
    occValE "no patterns here".data = .ok 1 :=
  ⟨by decide,
   (claim_C6 "no patterns here".data sampleCtx sampleDiv101).2.1 (by decide),
   by decide,
   (claim_C6 "no patterns here".data sampleCtx sampleDiv101).2.2.2.1 (by decide)⟩

/-- C7: a non-200 status on the session GET or on the search POST makes
`_get_availability_html` raise `CamavaError` with the failing HTTP status
embedded in the message. -/
theorem claim_C7 (cid : Int) (s e : PyDate) (net : Network) :
    (net.getStatus ≠ 200 →
      (getAvailabilityHtml cid s e net).1 =
        .error ("Failed to establish session: " ++ toString net.getStatus).data) ∧
    (net.getStatus = 200 → net.postStatus ≠ 200 →
      (getAvailabilityHtml cid s e net).1 =
        .error ("Search request failed: " ++ toString net.postStatus).data) := by
  constructor
  · intro h
    unfold getAvailabilityHtml
    rw [if_pos h]
  · intro h1 h2
    unfold getAvailabilityHtml
    rw [if_neg (fun hh => hh h1), if_pos h2]

/-- C7 witness: GET 200 but POST 503 raises with status 503 captured. -/
theorem claim_C7_witness :
    (getAvailabilityHtml 2 ⟨2026, 1, 10⟩ ⟨2026, 1, 12⟩ ⟨200, 503, []⟩).1 =
      .error ("Search request failed: 503").data := by
  rw [(claim_C7 2 ⟨2026, 1, 10⟩ ⟨2026, 1, 12⟩ ⟨200, 503, []⟩).2 rfl (by decide)]
  congr 1

/-- C8: with an unpopulated cache, `find_campgrounds` returns an empty list
(raising nothing) on a network exception, a non-200 response, or a page
without the `parent_idno` select; and on success the options are mapped by
the skipping rule — options with an empty stripped value or text, or a value
that does not parse as an integer, are silently dropped. -/
theorem claim_C8 (parkName : List Char) (st : ProviderState)
    (hcache : st.cache = none) :
    (findCampgrounds parkName st .netException).1 = [] ∧
    (∀ status page, status ≠ 200 →
      (findCampgrounds parkName st (.response status page)).1 = []) ∧
    (∀ status, (findCampgrounds parkName st (.response status ⟨none⟩)).1 = []) ∧
    (∀ opts, (findCampgrounds parkName st (.response 200 ⟨some opts⟩)).1 =
      opts.filterMap (catalogOptionRule parkName)) := by
  refine ⟨?_, ?_, ?_, ?_⟩
  · unfold findCampgrounds
    simp [hcache]
  · intro status page h
    unfold findCampgrounds
    simp [hcache, h]
  · intro status
    unfold findCampgrounds
    by_cases h : status = 200 <;> simp [hcache, h]
  · intro opts
    unfold findCampgrounds
    simp [hcache, catalogLoop_eq_filterMap]

/-- C8 witness: a catalog fetch answered with HTTP 500 yields an empty
facility list and no exception. -/
theorem claim_C8_witness :
    ProviderState.cache ⟨none⟩ = none ∧
    (findCampgrounds "Santa Barbara County Parks".data ⟨none⟩
      (.response 500 ⟨some [⟨"1".data, "Cachuma Lake".data⟩]⟩)).1 = [] :=
  ⟨rfl,
   (claim_C8 "Santa Barbara County Parks".data ⟨none⟩ rfl).2.1 500
     ⟨some [⟨"1".data, "Cachuma Lake".data⟩]⟩ (by decide)⟩

/-- C9: once the cache is populated, every later `find_campgrounds` call
returns the cached list, leaves the state unchanged, and performs no network
I/O — for any current network answer, including one with different data; and
a first successful call with an empty cache writes the computed list into
the cache. -/
theorem claim_C9 (parkName : List Char) (st : ProviderState)
    (l : List CampgroundFacility) (hcache : st.cache = some l) :
    (∀ net, findCampgrounds parkName st net = (l, st, false)) ∧
    (∀ (st2 : ProviderState) opts, st2.cache = none →
      (findCampgrounds parkName st2 (.response 200 ⟨some opts⟩)).2.1 =
        { cache := some (catalogLoop parkName opts) }) := by
  constructor
  · intro net
    unfold findCampgrounds
    simp [hcache]
  · intro st2 opts h2
    unfold findCampgrounds
    simp [h2]

/-- C9 witness: a provider whose cache holds one facility answers from the
cache with no I/O even though the live page now lists a different option. -/
theorem claim_C9_witness :
    ProviderState.cache ⟨some [sampleFacility]⟩ = some [sampleFacility] ∧
    findCampgrounds "Santa Barbara County Parks".data ⟨some [sampleFacility]⟩
      (.response 200 ⟨some [⟨"9".data, "Brand New Park".data⟩]⟩) =
      ([sampleFacility], ⟨some [sampleFacility]⟩, false) :=
  ⟨rfl,
   (claim_C9 "Santa Barbara County Parks".data ⟨some [sampleFacility]⟩
     [sampleFacility] rfl).1
     (.response 200 ⟨some [⟨"9".data, "Brand New Park".data⟩]⟩)⟩

/-- C10: when both requests return 200, `get_campsites` returns `.ok`
regardless of the fragments' `data-id` strings (an unparseable id never
raises — that fragment is simply dropped by the per-fragment handler);
deduplication keys on the raw `data-id` strings (their first occurrences
are pairwise distinct as strings), and every returned record's
`campsite_id` is the integer parse of some fragment's `data-id`. -/
theorem claim_C10 (parkName bookingUrl : List Char) (st : ProviderState)
    (cnet : CatalogNet) (net : Network) (cid : Int) (s e : PyDate)
    (hg : net.getStatus = 200) (hp : net.postStatus = 200) :
    getCampsites parkName bookingUrl st cnet net cid s e =
      (.ok (parseAvailabilityHtml
        { campgroundId := cid
          campgroundName := (getCampgroundName parkName st cnet cid).1
          startDate := s
          endDate := e
          bookingUrl := bookingUrl } net.postDivs),
        (getCampgroundName parkName st cnet cid).2) ∧
    ((dedupFirstDivs net.postDivs).map Div.dataId).Nodup ∧
    (∀ ctx : ExtractCtx, ∀ c ∈ parseAvailabilityHtml ctx net.postDivs,
      ∃ d, d ∈ net.postDivs ∧ pyInt? d.dataId = some c.campsite_id) := by
  refine ⟨?_, dedupFirstDivs_nodup _, ?_⟩
  · unfold getCampsites getAvailabilityHtml
    simp [hg, hp]
  · intro ctx c hc
    rw [parseAvailabilityHtml_eq_filterMap] at hc
    obtain ⟨d, hd, hext⟩ := List.mem_filterMap.mp hc
    have hok := extractSiteInfo_some hext
    obtain ⟨p, n, i, _hp2, _hn, hi, rfl⟩ := extractSiteInfoE_ok ctx d c hok
    exact ⟨d, dedupFirstDivs_subset hd, hi⟩

/-- C10 witness: fragments with ids "7", "07" and "abc" — the first two are
distinct raw strings (both kept, both parsing to 7), the third never parses
and the call still returns `.ok`. -/
theorem claim_C10_witness :
    Network.getStatus ⟨200, 200, [sampleDiv7, sampleDiv07, sampleDivBadId]⟩ = 200 ∧
    getCampsites "Santa Barbara County Parks".data "url".data ⟨some [sampleFacility]⟩
        .netException ⟨200, 200, [sampleDiv7, sampleDiv07, sampleDivBadId]⟩ 2
        ⟨2026, 1, 10⟩ ⟨2026, 1, 12⟩ =
      (.ok (parseAvailabilityHtml
        { campgroundId := 2
          campgroundName :=
            (getCampgroundName "Santa Barbara County Parks".data
              ⟨some [sampleFacility]⟩ .netException 2).1
          startDate := ⟨2026, 1, 10⟩
          endDate := ⟨2026, 1, 12⟩
          bookingUrl := "url".data } [sampleDiv7, sampleDiv07, sampleDivBadId]),
        (getCampgroundName "Santa Barbara County Parks".data
          ⟨some [sampleFacility]⟩ .netException 2).2) ∧
    ((dedupFirstDivs [sampleDiv7, sampleDiv07, sampleDivBadId]).map Div.dataId).Nodup :=
  ⟨rfl,
   (claim_C10 "Santa Barbara County Parks".data "url".data ⟨some [sampleFacility]⟩
     .netException ⟨200, 200, [sampleDiv7, sampleDiv07, sampleDivBadId]⟩ 2
     ⟨2026, 1, 10⟩ ⟨2026, 1, 12⟩ rfl rfl).1,
   (claim_C10 "Santa Barbara County Parks".data "url".data ⟨some [sampleFacility]⟩
     .netException ⟨200, 200, [sampleDiv7, sampleDiv07, sampleDivBadId]⟩ 2
     ⟨2026, 1, 10⟩ ⟨2026, 1, 12⟩ rfl rfl).2.1⟩

end Camava
